import Mathlib

/-!
Shallow embedding of the WiredTiger MVCC transaction table
(`src/third_party/wiredtiger/src/txn/txn.c`) and proofs of the specified
properties: the global id-ordering invariant, snapshot construction, the
snapshot sort, durable-timestamp advancement, and the commit / prepare /
rollback protocols.

Machine integers (`uint64_t` ids and timestamps, `int` return codes) are
modelled as `Nat`; id comparisons in the source go through `WT_TXNID_LT`,
which is plain `<` on the 64-bit value, so they are plain `<` on `Nat` here.
Concurrency is modelled by explicit state passing: each embedded function
takes the global-table state it observes and returns the state it publishes;
cross-thread interference, where a claim needs it, is an explicit parameter.
-/

/-- `WT_TXN_NONE` (0): an unused transaction id / empty slot. -/
def WT_TXN_NONE : Nat := 0

/-- `WT_TXN_FIRST` (1): the first allocatable transaction id. -/
def WT_TXN_FIRST : Nat := 1

/-- `WT_TXN_ABORTED` (`UINT64_MAX`): the tombstone id written into
rolled-back update records. -/
def WT_TXN_ABORTED : Nat := 2 ^ 64 - 1

/-- `WT_TS_NONE` (0): "no timestamp". -/
def WT_TS_NONE : Nat := 0

/-- POSIX `EBUSY`, the non-blocking lock-acquisition failure code. -/
def EBUSY : Nat := 16

/-- POSIX `EINVAL`, the code the commit/rollback validation paths return. -/
def EINVAL : Nat := 22

/-- `WT_MIN` from the source's headers. -/
def WT_MIN (a b : Nat) : Nat := if a < b then a else b

/-! ### The snapshot sort (`__snapsort_partition`, `__snapsort_impl`,
`__snapsort`, lines 15-62)

The source sorts a `uint64_t` array in place.  The embedding works on
`List Nat` with explicit indices.  C array reads out of the valid range are
undefined behaviour; the embedding returns 0 for such reads and makes the
swap a no-op, and the unbounded `for (;;)` loops carry fuel, returning the
array as-is if it runs out — the only facts used downstream are that the
quicksort pass permutes the array, which holds for every fuel value. -/

/-- Read `array[i]` for an `Int` index: the in-range read of the source,
0 (an arbitrary value) for the out-of-range reads that are undefined
behaviour in C. -/
def getI (a : List Nat) (i : Int) : Nat :=
  if h : 0 ≤ i ∧ i.toNat < a.length then a.get ⟨i.toNat, h.2⟩ else 0

/-- The element swap in `__snapsort_partition` (lines 28-30); a no-op
unless both indices are in range (out-of-range writes are undefined
behaviour in C). -/
def listSwap (a : List Nat) (i j : Nat) : List Nat :=
  match a[i]?, a[j]? with
  | some x, some y => (a.set i y).set j x
  | _, _ => a

/-- `while (pivot < array[--j]) ;` (line 23): decrement `j`, keep
decrementing while the element exceeds the pivot.  The loop carries fuel so
that it is structurally recursive; `j` strictly decreases and the scan stops
once `j` leaves the array (the pivot is a `Nat`, never below the
out-of-range read's 0), so any fuel beyond the starting `j` makes the
fuelled loop agree with the source's. -/
def scanDown (pivot : Nat) (a : List Nat) : Int → Nat → Int
  | j, 0 => j - 1
  | j, fuel + 1 =>
    if pivot < getI a (j - 1) then scanDown pivot a (j - 1) fuel else j - 1

/-- `while (array[++i] < pivot) ;` (line 25): increment `i`, keep
incrementing while the element is below the pivot, with fuel; past the end
of the array the source's read is undefined behaviour, and the fuelled loop
simply stops there. -/
def scanUp (pivot : Nat) (a : List Nat) : Int → Nat → Int
  | i, 0 => i + 1
  | i, fuel + 1 =>
    if getI a (i + 1) < pivot then scanUp pivot a (i + 1) fuel else i + 1

/-- The `for (;;)` exchange loop of `__snapsort_partition` (lines 22-33),
with fuel; returns the permuted array and the returned index `j`. -/
def partitionLoop (pivot : Nat) : List Nat → Int → Int → Nat → List Nat × Int
  | a, _, j, 0 => (a, j)
  | a, i, j, fuel + 1 =>
    let j2 := scanDown pivot a j (a.length + 2)
    let i2 := scanUp pivot a i (a.length + 2)
    if i2 < j2 then partitionLoop pivot (listSwap a i2.toNat j2.toNat) i2 j2 fuel
    else (a, j2)

/-- `__snapsort_partition` (lines 15-34): Hoare partition starting from
`i = f - 1`, `j = l + 1`. -/
def __snapsort_partition (a : List Nat) (f l : Nat) (pivot : Nat) : List Nat × Int :=
  partitionLoop pivot a ((f : Int) - 1) ((l : Int) + 1) (a.length + 1)

/-- `__snapsort_impl` (lines 40-51): median-of-three quicksort that stops
refining segments of at most 17 elements (`while (f + 16 < l)`), with fuel
for the recursion/loop structure. -/
def snapsortImpl : List Nat → Nat → Nat → Nat → List Nat
  | a, _, _, 0 => a
  | a, f, l, fuel + 1 =>
    if f + 16 < l then
      let v1 := getI a f
      let v2 := getI a l
      let v3 := getI a ((f + l) / 2)
      let median :=
        if v1 < v2 then (if v3 < v1 then v1 else WT_MIN v2 v3)
        else (if v3 < v2 then v2 else WT_MIN v1 v3)
      let p := __snapsort_partition a f l median
      let a2 := snapsortImpl p.1 f p.2.toNat fuel
      snapsortImpl a2 (p.2.toNat + 1) l fuel
    else a

/-- Modelled from the spec: `WT_INSERTION_SORT` is a macro in the source
tree's shared headers, which are not under src/; the spec describes it as
"an insertion-sort base case", a plain ascending insertion sort by
`WT_TXNID_LT` (strict `<` on ids).  A textbook insertion sort on `Nat`
values is insensitive to how ties are broken, so it is embedded as
`List.insertionSort` with the reflexive order. -/
def WT_INSERTION_SORT (a : List Nat) : List Nat :=
  List.insertionSort (fun x y => x ≤ y) a

/-- `__snapsort` (lines 57-62): one quicksort pass (`__snapsort_impl`)
followed by an insertion sort over the whole array. -/
def __snapsort (a : List Nat) : List Nat :=
  WT_INSERTION_SORT (snapsortImpl a 0 (a.length - 1) (a.length + 2))

/-! Permutation facts about the quicksort pass: the array is only ever
modified through in-range swaps, so every intermediate array is a
permutation of the input, independently of fuel and indices. -/

theorem set_cons_perm (t : List Nat) (k : Nat) (v : Nat) (hk : k < t.length) :
    List.Perm (v :: t) (t.get ⟨k, hk⟩ :: t.set k v) := by
  induction t generalizing k with
  | nil => simp at hk
  | cons b rest ih =>
    cases k with
    | zero => simpa using List.Perm.swap b v rest
    | succ k =>
      have hk2 : k < rest.length := by simpa using hk
      have h1 : List.Perm (v :: b :: rest) (b :: v :: rest) := List.Perm.swap b v rest
      have h2 : List.Perm (b :: v :: rest) (b :: rest.get ⟨k, hk2⟩ :: rest.set k v) :=
        List.Perm.cons b (ih k hk2)
      have h3 : List.Perm (b :: rest.get ⟨k, hk2⟩ :: rest.set k v)
          (rest.get ⟨k, hk2⟩ :: b :: rest.set k v) :=
        List.Perm.swap (rest.get ⟨k, hk2⟩) b (rest.set k v)
      simpa using (h1.trans h2).trans h3

theorem set_set_perm (a : List Nat) (i j : Nat) (hi : i < a.length) (hj : j < a.length) :
    List.Perm ((a.set i (a.get ⟨j, hj⟩)).set j (a.get ⟨i, hi⟩)) a := by
  induction a generalizing i j with
  | nil => simp at hi
  | cons x t ih =>
    cases i with
    | zero =>
      cases j with
      | zero => simp
      | succ k =>
        have hk : k < t.length := by simpa using hj
        simpa using (set_cons_perm t k x hk).symm
    | succ m =>
      have hm : m < t.length := by simpa using hi
      cases j with
      | zero =>
        simpa using (set_cons_perm t m x hm).symm
      | succ k =>
        have hk : k < t.length := by simpa using hj
        simpa using List.Perm.cons x (ih m k hm hk)

theorem listSwap_perm (a : List Nat) (i j : Nat) : List.Perm (listSwap a i j) a := by
  unfold listSwap
  cases hi : a[i]? with
  | none => exact List.Perm.refl a
  | some x =>
    cases hj : a[j]? with
    | none => exact List.Perm.refl a
    | some y =>
      have hi2 : i < a.length := by
        by_contra hcon
        have hn : a[i]? = none := List.getElem?_eq_none (Nat.le_of_not_lt hcon)
        rw [hn] at hi
        exact Option.noConfusion hi
      have hj2 : j < a.length := by
        by_contra hcon
        have hn : a[j]? = none := List.getElem?_eq_none (Nat.le_of_not_lt hcon)
        rw [hn] at hj
        exact Option.noConfusion hj
      have hx : x = a.get ⟨i, hi2⟩ := by
        have h2 := List.getElem?_eq_getElem hi2
        rw [hi] at h2
        simpa using h2
      have hy : y = a.get ⟨j, hj2⟩ := by
        have h2 := List.getElem?_eq_getElem hj2
        rw [hj] at h2
        simpa using h2
      subst hx hy
      exact set_set_perm a i j hi2 hj2

theorem partitionLoop_perm (pivot : Nat) :
    ∀ (fuel : Nat) (a : List Nat) (i j : Int),
      List.Perm (partitionLoop pivot a i j fuel).1 a := by
  intro fuel
  induction fuel with
  | zero => intro a i j; exact List.Perm.refl a
  | succ fuel ih =>
    intro a i j
    simp only [partitionLoop]
    by_cases hc : scanUp pivot a i (a.length + 2) < scanDown pivot a j (a.length + 2)
    · simpa [hc] using
        ((ih (listSwap a (scanUp pivot a i (a.length + 2)).toNat
              (scanDown pivot a j (a.length + 2)).toNat)
            (scanUp pivot a i (a.length + 2)) (scanDown pivot a j (a.length + 2))).trans
          (listSwap_perm a (scanUp pivot a i (a.length + 2)).toNat
            (scanDown pivot a j (a.length + 2)).toNat))
    · simp [hc]

theorem snapsortImpl_perm :
    ∀ (fuel : Nat) (a : List Nat) (f l : Nat), List.Perm (snapsortImpl a f l fuel) a := by
  intro fuel
  induction fuel with
  | zero => intro a f l; exact List.Perm.refl a
  | succ fuel ih =>
    intro a f l
    simp only [snapsortImpl]
    by_cases hc : f + 16 < l
    · simp only [if_pos hc]
      exact (ih _ _ _).trans ((ih _ _ _).trans
        (partitionLoop_perm _ _ _ _ _))
    · simp only [if_neg hc]
      exact List.Perm.refl a

theorem snapsort_perm (a : List Nat) : List.Perm (__snapsort a) a :=
  (List.perm_insertionSort _ _).trans (snapsortImpl_perm _ a 0 (a.length - 1))

theorem snapsort_sorted (a : List Nat) :
    List.Sorted (fun x y => x ≤ y) (__snapsort a) :=
  List.sorted_insertionSort _ _

/-! ### `__txn_sort_snapshot` (lines 94-110) -/

/-- The per-transaction snapshot fields set by `__txn_sort_snapshot`. -/
structure WT_TXN_SNAPSHOT where
  snapshot : List Nat
  snapshot_count : Nat
  snap_min : Nat
  snap_max : Nat
deriving DecidableEq, Repr

/-- `__txn_sort_snapshot` (lines 94-110): sort the collected ids when there
are at least two (`if (n > 1) __snapsort(txn->snapshot, n)`), record the
count and `snap_max`, and set `snap_min` to
`(n > 0 && WT_TXNID_LE(snapshot[0], snap_max)) ? snapshot[0] : snap_max`. -/
def __txn_sort_snapshot (ids : List Nat) (snap_max : Nat) : WT_TXN_SNAPSHOT :=
  let sorted := if 1 < ids.length then __snapsort ids else ids
  { snapshot := sorted
    snapshot_count := ids.length
    snap_max := snap_max
    snap_min :=
      match sorted with
      | [] => snap_max
      | x :: _ => if x ≤ snap_max then x else snap_max }

/-- C3: for every finite array of distinct ids — the empty array and
singleton arrays included — the snapshot sort as invoked from
`__txn_sort_snapshot` produces a strictly ascending sequence that is a
permutation of the input, i.e. exactly the input's sorted order. -/
theorem txn_sort_snapshot_sorts (ids : List Nat) (snap_max : Nat) (hnd : ids.Nodup) :
    List.Sorted (fun x y => x < y) (__txn_sort_snapshot ids snap_max).snapshot ∧
    List.Perm (__txn_sort_snapshot ids snap_max).snapshot ids ∧
    (__txn_sort_snapshot ids snap_max).snapshot
      = List.insertionSort (fun x y => x ≤ y) ids := by
  have hperm : List.Perm (__txn_sort_snapshot ids snap_max).snapshot ids := by
    simp only [__txn_sort_snapshot]
    by_cases hc : 1 < ids.length
    · simpa [hc] using snapsort_perm ids
    · simp [hc]
  have hle : List.Sorted (fun x y => x ≤ y) (__txn_sort_snapshot ids snap_max).snapshot := by
    simp only [__txn_sort_snapshot]
    by_cases hc : 1 < ids.length
    · simpa [hc] using snapsort_sorted ids
    · simp only [hc, if_false]
      match ids, hc with
      | [], _ => simp
      | [x], _ => simp
      | x :: y :: rest, hc => simp at hc
  have hnodup : (__txn_sort_snapshot ids snap_max).snapshot.Nodup :=
    List.Perm.nodup hperm.symm hnd
  have hlt : List.Sorted (fun x y => x < y) (__txn_sort_snapshot ids snap_max).snapshot :=
    List.Sorted.lt_of_le hle hnodup
  refine ⟨hlt, hperm, ?_⟩
  exact List.eq_of_perm_of_sorted
    (hperm.trans (List.perm_insertionSort _ ids).symm) hle
    (List.sorted_insertionSort _ ids)

/-- Witness for C3 at a concrete input. -/
theorem txn_sort_snapshot_sorts_witness :
    ([30, 7, 19] : List Nat).Nodup ∧
      (List.Sorted (fun x y => x < y) (__txn_sort_snapshot [30, 7, 19] 100).snapshot ∧
        List.Perm (__txn_sort_snapshot [30, 7, 19] 100).snapshot [30, 7, 19] ∧
        (__txn_sort_snapshot [30, 7, 19] 100).snapshot
          = List.insertionSort (fun x y => x ≤ y) [30, 7, 19]) :=
  ⟨by decide, txn_sort_snapshot_sorts [30, 7, 19] 100 (by decide)⟩

/-! ### The global transaction table and `__txn_oldest_scan` /
`__wt_txn_update_oldest` (lines 254-449) -/

/-- `WT_TXN_STATE`: the published per-session slot.  The source's
`is_allocating` flag only matters while a slot is mid-allocation; the
sequential embedding reads settled slot values, where the spin loops of
`txn.c` (lines 212-235 and 279-300) reduce to a single test of the
published id. -/
structure WT_TXN_STATE where
  id : Nat
  pinned_id : Nat
  metadata_pinned : Nat
deriving DecidableEq, Repr

/-- The fields of `WT_TXN_GLOBAL` that `txn.c` reads and writes:
`checkpoint_id` is `checkpoint_state.id`. -/
structure WT_TXN_GLOBAL where
  current : Nat
  last_running : Nat
  oldest_id : Nat
  metadata_pinned : Nat
  checkpoint_id : Nat
  nsnap_oldest_id : Nat
  durable_timestamp : Nat
  has_durable_timestamp : Bool
  states : List WT_TXN_STATE
deriving DecidableEq, Repr

/-- The three values `__txn_oldest_scan` computes. -/
structure ScanResult where
  oldest_id : Nat
  last_running : Nat
  metadata_pinned : Nat
deriving DecidableEq, Repr

/-- One iteration of the slot walk in `__txn_oldest_scan` (lines 277-318):
lower `last_running` to a published id in `[prev_oldest, last_running)`,
lower `metadata_pinned` to the slot's metadata-pinned id, and lower
`oldest_id` to the slot's pinned id. -/
def oldestScanSlot (prev_oldest : Nat) (acc : ScanResult) (s : WT_TXN_STATE) : ScanResult :=
  { last_running :=
      if s.id ≠ WT_TXN_NONE ∧ prev_oldest ≤ s.id ∧ s.id < acc.last_running then s.id
      else acc.last_running
    metadata_pinned :=
      if s.metadata_pinned ≠ WT_TXN_NONE ∧ s.metadata_pinned < acc.metadata_pinned then
        s.metadata_pinned
      else acc.metadata_pinned
    oldest_id :=
      if s.pinned_id ≠ WT_TXN_NONE ∧ s.pinned_id < acc.oldest_id then s.pinned_id
      else acc.oldest_id }

/-- The initial accumulator of `__txn_oldest_scan` (lines 271-273):
`last_running = oldest_id = current`, and `metadata_pinned` is the
checkpoint id if a checkpoint is running, else `current`. -/
def scanInit (g : WT_TXN_GLOBAL) : ScanResult :=
  { oldest_id := g.current
    last_running := g.current
    metadata_pinned := if g.checkpoint_id = WT_TXN_NONE then g.current else g.checkpoint_id }

/-- The clamps after the slot walk (lines 320-329): the oldest id cannot
exceed `last_running`, cannot move past a named snapshot, and the metadata
pinned id cannot move past the oldest id. -/
def scanClamp (g : WT_TXN_GLOBAL) (r : ScanResult) : ScanResult :=
  let oldest1 := if r.last_running < r.oldest_id then r.last_running else r.oldest_id
  let oldest2 :=
    if g.nsnap_oldest_id ≠ WT_TXN_NONE ∧ g.nsnap_oldest_id < oldest1 then g.nsnap_oldest_id
    else oldest1
  { oldest_id := oldest2
    last_running := r.last_running
    metadata_pinned := if oldest2 < r.metadata_pinned then oldest2 else r.metadata_pinned }

/-- `__txn_oldest_scan` (lines 254-335), sequential embedding. -/
def __txn_oldest_scan (g : WT_TXN_GLOBAL) : ScanResult :=
  scanClamp g (g.states.foldl (oldestScanSlot g.oldest_id) (scanInit g))

theorem foldl_scan_last_le (po : Nat) :
    ∀ (l : List WT_TXN_STATE) (acc : ScanResult),
      (l.foldl (oldestScanSlot po) acc).last_running ≤ acc.last_running := by
  intro l
  induction l with
  | nil => intro acc; exact Nat.le_refl _
  | cons s t ih =>
    intro acc
    refine (ih (oldestScanSlot po acc s)).trans ?_
    simp only [oldestScanSlot]
    split_ifs with h
    · exact Nat.le_of_lt h.2.2
    · exact Nat.le_refl _

theorem oldest_scan_ordered (g : WT_TXN_GLOBAL) :
    (__txn_oldest_scan g).metadata_pinned ≤ (__txn_oldest_scan g).oldest_id ∧
    (__txn_oldest_scan g).oldest_id ≤ (__txn_oldest_scan g).last_running ∧
    (__txn_oldest_scan g).last_running ≤ g.current := by
  have hfold := foldl_scan_last_le g.oldest_id g.states (scanInit g)
  have hinit : (scanInit g).last_running = g.current := rfl
  unfold __txn_oldest_scan scanClamp
  rw [hinit] at hfold
  simp only
  split_ifs <;> omega

/-- The result of `__wt_txn_update_oldest`: its POSIX return code and the
table as republished. -/
structure UpdateOldestResult where
  ret : Nat
  global : WT_TXN_GLOBAL
deriving DecidableEq, Repr

/-- The publish step of `__wt_txn_update_oldest` (lines 426-432): each of
the three fields moves forward only. -/
def updateOldestPublish (g : WT_TXN_GLOBAL) (r : ScanResult) : WT_TXN_GLOBAL :=
  { g with
    metadata_pinned :=
      if g.metadata_pinned < r.metadata_pinned then r.metadata_pinned else g.metadata_pinned
    oldest_id := if g.oldest_id < r.oldest_id then r.oldest_id else g.oldest_id
    last_running := if g.last_running < r.last_running then r.last_running else g.last_running }

/-- `__wt_txn_update_oldest` (lines 341-449), sequential embedding.  The
lock acquisitions are oracles: `tryReadRet` / `tryWriteRet` are the return
codes of `__wt_try_readlock` / `__wt_try_writelock` (0 = acquired), ignored
when `wait` selects the blocking lock.  `pinnedTsRet` is the return code of
`__wt_txn_update_pinned_timestamp`, a timestamp-queue routine outside the
id logic of txn.c that does not touch the four id fields.  In the
sequential embedding no other thread runs between the read-locked scan and
the write-locked rescan, so both scans see the same table `g`. -/
def __wt_txn_update_oldest (g : WT_TXN_GLOBAL) (strict wait : Bool)
    (pinnedTsRet tryReadRet tryWriteRet : Nat) : UpdateOldestResult :=
  if strict ∧ pinnedTsRet ≠ 0 then { ret := pinnedTsRet, global := g }
  else if (g.oldest_id = g.current ∧ g.metadata_pinned = g.current) ∨
      (¬strict ∧ g.current < g.oldest_id + 100) then { ret := 0, global := g }
  else if ¬wait ∧ tryReadRet ≠ 0 then
    { ret := if tryReadRet = EBUSY then 0 else tryReadRet, global := g }
  else
    let r := __txn_oldest_scan g
    if (r.oldest_id = g.oldest_id ∨ (¬strict ∧ r.oldest_id < g.oldest_id + 100)) ∧
        (r.last_running = g.last_running ∨
          (¬strict ∧ r.last_running < g.last_running + 100)) ∧
        r.metadata_pinned = g.metadata_pinned then { ret := 0, global := g }
    else if ¬wait ∧ tryWriteRet ≠ 0 then
      { ret := if tryWriteRet = EBUSY then 0 else tryWriteRet, global := g }
    else if r.oldest_id ≤ g.oldest_id ∧ r.last_running ≤ g.last_running ∧
        r.metadata_pinned ≤ g.metadata_pinned then { ret := 0, global := g }
    else { ret := 0, global := updateOldestPublish g (__txn_oldest_scan g) }

/-- The C1 ordering invariant on the published table fields. -/
def tableOrdered (g : WT_TXN_GLOBAL) : Prop :=
  g.metadata_pinned ≤ g.oldest_id ∧ g.oldest_id ≤ g.last_running ∧ g.last_running ≤ g.current

instance (g : WT_TXN_GLOBAL) : Decidable (tableOrdered g) := by
  unfold tableOrdered; infer_instance

theorem updateOldestPublish_ordered (g : WT_TXN_GLOBAL) (r : ScanResult)
    (hg : tableOrdered g) (h1 : r.metadata_pinned ≤ r.oldest_id)
    (h2 : r.oldest_id ≤ r.last_running) (h3 : r.last_running ≤ g.current) :
    tableOrdered (updateOldestPublish g r) ∧
      g.metadata_pinned ≤ (updateOldestPublish g r).metadata_pinned ∧
      g.oldest_id ≤ (updateOldestPublish g r).oldest_id ∧
      g.last_running ≤ (updateOldestPublish g r).last_running ∧
      (updateOldestPublish g r).current = g.current := by
  unfold tableOrdered at hg ⊢
  unfold updateOldestPublish
  simp only
  split_ifs <;> simp <;> omega

/-- C1: `__txn_oldest_scan` returns values already in the order
`metadata_pinned ≤ oldest_id ≤ last_running ≤ current`, and
`__wt_txn_update_oldest` only ever advances each of the three published
fields forward, preserving the ordering invariant across every update (the
id-allocation and slot-publication steps never touch the four published
fields, so these two routines are the only writers the invariant depends
on). -/
theorem oldest_scan_update_invariant (g : WT_TXN_GLOBAL) (strict wait : Bool)
    (pinnedTsRet tryReadRet tryWriteRet : Nat) (hg : tableOrdered g) :
    ((__txn_oldest_scan g).metadata_pinned ≤ (__txn_oldest_scan g).oldest_id ∧
      (__txn_oldest_scan g).oldest_id ≤ (__txn_oldest_scan g).last_running ∧
      (__txn_oldest_scan g).last_running ≤ g.current) ∧
    (tableOrdered
        (__wt_txn_update_oldest g strict wait pinnedTsRet tryReadRet tryWriteRet).global ∧
      g.metadata_pinned ≤
        (__wt_txn_update_oldest g strict wait pinnedTsRet tryReadRet tryWriteRet).global.metadata_pinned ∧
      g.oldest_id ≤
        (__wt_txn_update_oldest g strict wait pinnedTsRet tryReadRet tryWriteRet).global.oldest_id ∧
      g.last_running ≤
        (__wt_txn_update_oldest g strict wait pinnedTsRet tryReadRet tryWriteRet).global.last_running ∧
      (__wt_txn_update_oldest g strict wait pinnedTsRet tryReadRet tryWriteRet).global.current
        = g.current) := by
  have hscan := oldest_scan_ordered g
  have hpub := updateOldestPublish_ordered g (__txn_oldest_scan g) hg
    hscan.1 hscan.2.1 hscan.2.2
  refine ⟨hscan, ?_⟩
  simp only [__wt_txn_update_oldest]
  split_ifs <;>
    first
      | exact hpub
      | exact ⟨hg, Nat.le_refl _, Nat.le_refl _, Nat.le_refl _, rfl⟩

/-- Witness for C1 at a concrete table. -/
theorem oldest_scan_update_invariant_witness :
    tableOrdered
        { current := 10, last_running := 8, oldest_id := 5, metadata_pinned := 3,
          checkpoint_id := 0, nsnap_oldest_id := 0, durable_timestamp := 0,
          has_durable_timestamp := false,
          states := [{ id := 8, pinned_id := 6, metadata_pinned := 0 }] } ∧
      (((__txn_oldest_scan
            { current := 10, last_running := 8, oldest_id := 5, metadata_pinned := 3,
              checkpoint_id := 0, nsnap_oldest_id := 0, durable_timestamp := 0,
              has_durable_timestamp := false,
              states := [{ id := 8, pinned_id := 6, metadata_pinned := 0 }] }).metadata_pinned ≤
          (__txn_oldest_scan
            { current := 10, last_running := 8, oldest_id := 5, metadata_pinned := 3,
              checkpoint_id := 0, nsnap_oldest_id := 0, durable_timestamp := 0,
              has_durable_timestamp := false,
              states := [{ id := 8, pinned_id := 6, metadata_pinned := 0 }] }).oldest_id ∧
          (__txn_oldest_scan
            { current := 10, last_running := 8, oldest_id := 5, metadata_pinned := 3,
              checkpoint_id := 0, nsnap_oldest_id := 0, durable_timestamp := 0,
              has_durable_timestamp := false,
              states := [{ id := 8, pinned_id := 6, metadata_pinned := 0 }] }).oldest_id ≤
            (__txn_oldest_scan
              { current := 10, last_running := 8, oldest_id := 5, metadata_pinned := 3,
                checkpoint_id := 0, nsnap_oldest_id := 0, durable_timestamp := 0,
                has_durable_timestamp := false,
                states := [{ id := 8, pinned_id := 6, metadata_pinned := 0 }] }).last_running ∧
          (__txn_oldest_scan
            { current := 10, last_running := 8, oldest_id := 5, metadata_pinned := 3,
              checkpoint_id := 0, nsnap_oldest_id := 0, durable_timestamp := 0,
              has_durable_timestamp := false,
              states := [{ id := 8, pinned_id := 6, metadata_pinned := 0 }] }).last_running ≤
            (10 : Nat)) ∧
        (tableOrdered
            (__wt_txn_update_oldest
              { current := 10, last_running := 8, oldest_id := 5, metadata_pinned := 3,
                checkpoint_id := 0, nsnap_oldest_id := 0, durable_timestamp := 0,
                has_durable_timestamp := false,
                states := [{ id := 8, pinned_id := 6, metadata_pinned := 0 }] }
              true true 0 0 0).global ∧
          (3 : Nat) ≤
            (__wt_txn_update_oldest
              { current := 10, last_running := 8, oldest_id := 5, metadata_pinned := 3,
                checkpoint_id := 0, nsnap_oldest_id := 0, durable_timestamp := 0,
                has_durable_timestamp := false,
                states := [{ id := 8, pinned_id := 6, metadata_pinned := 0 }] }
              true true 0 0 0).global.metadata_pinned ∧
          (5 : Nat) ≤
            (__wt_txn_update_oldest
              { current := 10, last_running := 8, oldest_id := 5, metadata_pinned := 3,
                checkpoint_id := 0, nsnap_oldest_id := 0, durable_timestamp := 0,
                has_durable_timestamp := false,
                states := [{ id := 8, pinned_id := 6, metadata_pinned := 0 }] }
              true true 0 0 0).global.oldest_id ∧
          (8 : Nat) ≤
            (__wt_txn_update_oldest
              { current := 10, last_running := 8, oldest_id := 5, metadata_pinned := 3,
                checkpoint_id := 0, nsnap_oldest_id := 0, durable_timestamp := 0,
                has_durable_timestamp := false,
                states := [{ id := 8, pinned_id := 6, metadata_pinned := 0 }] }
              true true 0 0 0).global.last_running ∧
          (__wt_txn_update_oldest
            { current := 10, last_running := 8, oldest_id := 5, metadata_pinned := 3,
              checkpoint_id := 0, nsnap_oldest_id := 0, durable_timestamp := 0,
              has_durable_timestamp := false,
              states := [{ id := 8, pinned_id := 6, metadata_pinned := 0 }] }
            true true 0 0 0).global.current = 10)) :=
  ⟨by decide,
    oldest_scan_update_invariant
      { current := 10, last_running := 8, oldest_id := 5, metadata_pinned := 3,
        checkpoint_id := 0, nsnap_oldest_id := 0, durable_timestamp := 0,
        has_durable_timestamp := false,
        states := [{ id := 8, pinned_id := 6, metadata_pinned := 0 }] }
      true true 0 0 0 (by decide)⟩

/-- A concrete table state in which `__wt_txn_update_oldest` reaches its
lock acquisitions: the table has advanced far beyond the published oldest
id, and a scan moves every field. -/
def busyTable : WT_TXN_GLOBAL :=
  { current := 200, last_running := 150, oldest_id := 1, metadata_pinned := 1,
    checkpoint_id := 0, nsnap_oldest_id := 0, durable_timestamp := 0,
    has_durable_timestamp := false, states := [] }

/-- C6 counterexample: called with `wait = false` on a table that needs an
update, with the non-blocking read-lock acquisition failing with `EBUSY`,
`__wt_txn_update_oldest` returns 0 — line 378 of txn.c,
`return (ret == EBUSY ? 0 : ret)`, silently swallows the busy status
instead of returning it to the caller as the claim states. -/
theorem update_oldest_busy_swallowed :
    (__wt_txn_update_oldest busyTable true false 0 EBUSY 0).ret = 0 ∧
      (0 : Nat) ≠ EBUSY := by decide

/-- C6 amended: when `wait = false` and the non-blocking acquisition of the
read lock — or of the write lock, once the read-locked scan has shown an
update is needed — fails, an `EBUSY` failure makes the function return 0
with the table untouched (the update is skipped; the caller may retry
later), while any other lock-failure code is propagated to the caller. -/
theorem update_oldest_trylock_fail (g : WT_TXN_GLOBAL) (strict : Bool) (e w : Nat)
    (hreach : ¬((g.oldest_id = g.current ∧ g.metadata_pinned = g.current) ∨
      (¬strict ∧ g.current < g.oldest_id + 100)))
    (he : e ≠ 0) (hw : w ≠ 0)
    (hskip : ¬(((__txn_oldest_scan g).oldest_id = g.oldest_id ∨
        (¬strict ∧ (__txn_oldest_scan g).oldest_id < g.oldest_id + 100)) ∧
      ((__txn_oldest_scan g).last_running = g.last_running ∨
        (¬strict ∧ (__txn_oldest_scan g).last_running < g.last_running + 100)) ∧
      (__txn_oldest_scan g).metadata_pinned = g.metadata_pinned)) :
    ((__wt_txn_update_oldest g strict false 0 e w).ret
        = (if e = EBUSY then 0 else e) ∧
      (__wt_txn_update_oldest g strict false 0 e w).global = g) ∧
    ((__wt_txn_update_oldest g strict false 0 0 w).ret
        = (if w = EBUSY then 0 else w) ∧
      (__wt_txn_update_oldest g strict false 0 0 w).global = g) := by
  constructor
  · simp only [__wt_txn_update_oldest]
    rw [if_neg (by simp), if_neg hreach, if_pos (by simpa using he)]
    exact ⟨rfl, rfl⟩
  · simp only [__wt_txn_update_oldest]
    rw [if_neg (by simp), if_neg hreach, if_neg (by simp), if_neg hskip,
      if_pos (by simpa using hw)]
    exact ⟨rfl, rfl⟩

/-- Witness for the amended C6 at a concrete input: a swallowed `EBUSY` on
the read lock and a propagated non-busy failure code 7 on the write lock. -/
theorem update_oldest_trylock_fail_witness :
    ((__wt_txn_update_oldest busyTable true false 0 EBUSY 7).ret = 0 ∧
      (__wt_txn_update_oldest busyTable true false 0 EBUSY 7).global = busyTable) ∧
    ((__wt_txn_update_oldest busyTable true false 0 0 7).ret = 7 ∧
      (__wt_txn_update_oldest busyTable true false 0 0 7).global = busyTable) := by
  have h := update_oldest_trylock_fail busyTable true EBUSY 7
    (by decide) (by decide) (by decide) (by decide)
  simpa using h

/-! ### `__wt_txn_get_snapshot` (lines 148-248) -/

theorem txn_sort_snapshot_mem (ids : List Nat) (m x : Nat) :
    x ∈ (__txn_sort_snapshot ids m).snapshot ↔ x ∈ ids := by
  simp only [__txn_sort_snapshot]
  by_cases hc : 1 < ids.length
  · simpa [hc] using (snapsort_perm ids).mem_iff
  · simp [hc]

theorem txn_sort_snapshot_snap_max (ids : List Nat) (m : Nat) :
    (__txn_sort_snapshot ids m).snap_max = m := rfl

theorem txn_sort_snapshot_min (ids : List Nat) (m : Nat) :
    ((__txn_sort_snapshot ids m).snapshot = [] →
      (__txn_sort_snapshot ids m).snap_min = m) ∧
    (∀ x rest, (__txn_sort_snapshot ids m).snapshot = x :: rest →
      (__txn_sort_snapshot ids m).snap_min = min x m) := by
  simp only [__txn_sort_snapshot]
  constructor
  · intro h
    simp [h]
  · intro x rest h
    simp [h, Nat.min_def]

/-- The result of `__wt_txn_get_snapshot`: the snapshot fields written by
`__txn_sort_snapshot` plus the `pinned_id` / `metadata_pinned` values the
session publishes into its slot. -/
structure GetSnapshotResult where
  snap : WT_TXN_SNAPSHOT
  pinned_id : Nat
  metadata_pinned : Nat
deriving DecidableEq, Repr

/-- One iteration of the slot walk of `__wt_txn_get_snapshot`
(lines 195-236) over the indexed slots: skip the caller's own slot
(`s != txn_state`); include a published id in `[prev_oldest, current)` in
the snapshot and lower the candidate pinned id to it. -/
def snapshotScanSlot (me prev_oldest current_id : Nat)
    (acc : List Nat × Nat) (p : Nat × WT_TXN_STATE) : List Nat × Nat :=
  if p.1 ≠ me ∧ p.2.id ≠ WT_TXN_NONE ∧ prev_oldest ≤ p.2.id ∧ p.2.id < current_id then
    (acc.1 ++ [p.2.id], if p.2.id < acc.2 then p.2.id else acc.2)
  else acc

/-- `__wt_txn_get_snapshot` (lines 148-248), sequential embedding for the
session occupying slot `me`.  The commit-generation cache (lines 163-169)
only short-circuits to a previously built snapshot, so the embedding always
builds one; the spin on `is_allocating` (lines 212-235) reduces to a single
test of the settled slot id; when no checkpoint is running the session's
`metadata_pinned` keeps its released value `WT_TXN_NONE`. -/
def __wt_txn_get_snapshot (g : WT_TXN_GLOBAL) (me : Nat) : GetSnapshotResult :=
  let current_id := g.current
  let prev_oldest_id := g.oldest_id
  let ckpt : List Nat := if g.checkpoint_id ≠ WT_TXN_NONE then [g.checkpoint_id] else []
  let meta : Nat := if g.checkpoint_id ≠ WT_TXN_NONE then g.checkpoint_id else WT_TXN_NONE
  if prev_oldest_id = current_id then
    { snap := __txn_sort_snapshot ckpt current_id
      pinned_id := current_id
      metadata_pinned := meta }
  else
    let w := (g.states.enum).foldl (snapshotScanSlot me prev_oldest_id current_id)
      (ckpt, current_id)
    { snap := __txn_sort_snapshot w.1 current_id
      pinned_id := w.2
      metadata_pinned := meta }

theorem foldl_snapshot_scan_prop (me po cur myid : Nat) :
    ∀ (l : List (Nat × WT_TXN_STATE)), (∀ p ∈ l, p.1 ≠ me → p.2.id ≠ myid) →
      ∀ acc : List Nat × Nat, (∀ x ∈ acc.1, x ≠ myid ∧ x < cur) →
        ∀ x ∈ (l.foldl (snapshotScanSlot me po cur) acc).1, x ≠ myid ∧ x < cur := by
  intro l
  induction l with
  | nil => intro _ acc hacc; simpa using hacc
  | cons p t ih =>
    intro hl acc hacc
    simp only [List.foldl_cons]
    refine ih (fun q hq hne => hl q (List.mem_cons_of_mem p hq) hne) _ ?_
    intro x hx
    simp only [snapshotScanSlot] at hx
    by_cases hcond : p.1 ≠ me ∧ p.2.id ≠ WT_TXN_NONE ∧ po ≤ p.2.id ∧ p.2.id < cur
    · rw [if_pos hcond] at hx
      simp at hx
      rcases hx with hx1 | hx2
      · exact hacc x hx1
      · subst hx2
        exact ⟨hl p (List.mem_cons_self p t) hcond.1, hcond.2.2.2⟩
    · rw [if_neg hcond] at hx
      exact hacc x hx

theorem foldl_snapshot_scan_empty (me po cur : Nat) :
    ∀ (l : List (Nat × WT_TXN_STATE)), (∀ p ∈ l, p.1 ≠ me → p.2.id = WT_TXN_NONE) →
      ∀ acc : List Nat × Nat, l.foldl (snapshotScanSlot me po cur) acc = acc := by
  intro l
  induction l with
  | nil => intro _ acc; rfl
  | cons p t ih =>
    intro hl acc
    have hstep : snapshotScanSlot me po cur acc p = acc := by
      unfold snapshotScanSlot
      rw [if_neg]
      rintro ⟨hne, hid, -⟩
      exact hid (hl p (List.mem_cons_self p t) hne)
    rw [List.foldl_cons, hstep]
    exact ih (fun q hq => hl q (List.mem_cons_of_mem p hq)) acc

/-- C2: the snapshot `__wt_txn_get_snapshot` builds for a session never
contains that session's own transaction id, and never contains an id at or
above the snapshot's `snap_max`.  The hypotheses say what every state
reachable by begin/commit/rollback satisfies: the caller's id appears in no
other session's slot (allocated ids are unique), and any running
checkpoint's id is an allocated id (below `current`) of some other session —
in a history of begin/commit/rollback alone, `checkpoint_id = WT_TXN_NONE`
holds, which satisfies this vacuously. -/
theorem get_snapshot_excludes (g : WT_TXN_GLOBAL) (me myid : Nat)
    (hckpt : g.checkpoint_id = WT_TXN_NONE ∨
      (g.checkpoint_id ≠ myid ∧ g.checkpoint_id < g.current))
    (hown : ∀ p ∈ g.states.enum, p.1 ≠ me → p.2.id ≠ myid) :
    ∀ x ∈ (__wt_txn_get_snapshot g me).snap.snapshot,
      x ≠ myid ∧ x < (__wt_txn_get_snapshot g me).snap.snap_max := by
  have hckptList : ∀ y ∈ (if g.checkpoint_id ≠ WT_TXN_NONE then [g.checkpoint_id] else []),
      y ≠ myid ∧ y < g.current := by
    intro y hy
    split_ifs at hy with hc
    · have hye : y = g.checkpoint_id := by simpa using hy
      subst hye
      rcases hckpt with h | h
      · exact absurd h hc
      · exact h
    · simp at hy
  intro x hx
  simp only [__wt_txn_get_snapshot] at hx ⊢
  by_cases hfast : g.oldest_id = g.current
  · simp only [if_pos hfast] at hx ⊢
    rw [txn_sort_snapshot_snap_max]
    exact hckptList x ((txn_sort_snapshot_mem _ _ _).mp hx)
  · simp only [if_neg hfast] at hx ⊢
    rw [txn_sort_snapshot_snap_max]
    refine foldl_snapshot_scan_prop me g.oldest_id g.current myid g.states.enum hown
      ((if g.checkpoint_id ≠ WT_TXN_NONE then [g.checkpoint_id] else []), g.current)
      hckptList x ((txn_sort_snapshot_mem _ _ _).mp hx)

/-- A concrete table for the snapshot witnesses: the caller occupies
slot 0 with id 7; slots 1 and 3 publish running ids 5 and 6, slot 2 is
empty. -/
def snapTable : WT_TXN_GLOBAL :=
  { current := 9, last_running := 5, oldest_id := 4, metadata_pinned := 4,
    checkpoint_id := 0, nsnap_oldest_id := 0, durable_timestamp := 0,
    has_durable_timestamp := false,
    states := [{ id := 7, pinned_id := 4, metadata_pinned := 0 },
               { id := 5, pinned_id := 4, metadata_pinned := 0 },
               { id := 0, pinned_id := 0, metadata_pinned := 0 },
               { id := 6, pinned_id := 5, metadata_pinned := 0 }] }

/-- Witness for C2 at a concrete input: the caller in slot 0 with id 7
gets the snapshot `[5, 6]`, and its member 5 is neither the caller's id
nor at or above `snap_max`. -/
theorem get_snapshot_excludes_witness :
    (__wt_txn_get_snapshot snapTable 0).snap.snapshot = [5, 6] ∧
      ((5 : Nat) ≠ 7 ∧ 5 < (__wt_txn_get_snapshot snapTable 0).snap.snap_max) :=
  ⟨by decide, get_snapshot_excludes snapTable 0 7 (by decide) (by decide) 5 (by decide)⟩

theorem get_snapshot_snap_shape (g : WT_TXN_GLOBAL) (me : Nat) :
    ∃ ids, (__wt_txn_get_snapshot g me).snap = __txn_sort_snapshot ids g.current := by
  by_cases hfast : g.oldest_id = g.current
  · refine ⟨(if g.checkpoint_id ≠ WT_TXN_NONE then [g.checkpoint_id] else []), ?_⟩
    simp [__wt_txn_get_snapshot, hfast]
  · refine ⟨((g.states.enum).foldl (snapshotScanSlot me g.oldest_id g.current)
      ((if g.checkpoint_id ≠ WT_TXN_NONE then [g.checkpoint_id] else []), g.current)).1, ?_⟩
    simp [__wt_txn_get_snapshot, hfast]

/-- C4: after snapshot allocation, `snap_max` equals the table's `current`
id read at allocation time; `snap_min` equals `min(sorted[0], snap_max)`
when the snapshot array is non-empty, and `snap_max` when it is empty; and
an empty table — no running checkpoint, no other active transaction —
yields an empty snapshot array with `snap_min = snap_max`. -/
theorem get_snapshot_bounds (g : WT_TXN_GLOBAL) (me : Nat) :
    (__wt_txn_get_snapshot g me).snap.snap_max = g.current ∧
    (∀ x rest, (__wt_txn_get_snapshot g me).snap.snapshot = x :: rest →
      (__wt_txn_get_snapshot g me).snap.snap_min
        = min x (__wt_txn_get_snapshot g me).snap.snap_max) ∧
    ((__wt_txn_get_snapshot g me).snap.snapshot = [] →
      (__wt_txn_get_snapshot g me).snap.snap_min
        = (__wt_txn_get_snapshot g me).snap.snap_max) ∧
    ((g.checkpoint_id = WT_TXN_NONE ∧
        ∀ p ∈ g.states.enum, p.1 ≠ me → p.2.id = WT_TXN_NONE) →
      (__wt_txn_get_snapshot g me).snap.snapshot = [] ∧
      (__wt_txn_get_snapshot g me).snap.snap_min
        = (__wt_txn_get_snapshot g me).snap.snap_max) := by
  obtain ⟨ids, hids⟩ := get_snapshot_snap_shape g me
  refine ⟨?_, ?_, ?_, ?_⟩
  · rw [hids]
    exact txn_sort_snapshot_snap_max ids g.current
  · intro x rest h
    rw [hids] at h ⊢
    rw [txn_sort_snapshot_snap_max]
    exact (txn_sort_snapshot_min ids g.current).2 x rest h
  · intro h
    rw [hids] at h ⊢
    rw [txn_sort_snapshot_snap_max]
    exact (txn_sort_snapshot_min ids g.current).1 h
  · rintro ⟨hck, hslots⟩
    have hsnap : (__wt_txn_get_snapshot g me).snap = __txn_sort_snapshot [] g.current := by
      by_cases hfast : g.oldest_id = g.current
      · simp [__wt_txn_get_snapshot, hfast, hck]
      · have hfold := foldl_snapshot_scan_empty me g.oldest_id g.current g.states.enum
          hslots ([], g.current)
        simp [__wt_txn_get_snapshot, hfast, hck, hfold]
    rw [hsnap]
    exact ⟨rfl, (txn_sort_snapshot_min [] g.current).1 rfl⟩

/-- A table with no checkpoint and no transaction active other than the
caller's (slot 0). -/
def soloTable : WT_TXN_GLOBAL :=
  { current := 12, last_running := 12, oldest_id := 9, metadata_pinned := 9,
    checkpoint_id := 0, nsnap_oldest_id := 0, durable_timestamp := 0,
    has_durable_timestamp := false,
    states := [{ id := 11, pinned_id := 0, metadata_pinned := 0 },
               { id := 0, pinned_id := 0, metadata_pinned := 0 }] }

/-- Witness for C4 at a concrete input: the empty-table case gives an empty
snapshot array with `snap_min = snap_max`. -/
theorem get_snapshot_bounds_witness :
    (__wt_txn_get_snapshot soloTable 0).snap.snapshot = [] ∧
      (__wt_txn_get_snapshot soloTable 0).snap.snap_min
        = (__wt_txn_get_snapshot soloTable 0).snap.snap_max :=
  (get_snapshot_bounds soloTable 0).2.2.2 (by decide)

/-! ### Durable-timestamp advancement at commit
(`__wt_txn_commit`, lines 991-995 and 1008-1028) -/

/-- Lines 991-995 of `__wt_txn_commit`: the candidate durable timestamp is
the transaction's durable timestamp if one is set, else its commit
timestamp if one is set, else `WT_TS_NONE`. -/
def candidateDurable (has_ts_durable has_ts_commit : Bool)
    (durable_ts commit_ts : Nat) : Nat :=
  if has_ts_durable then durable_ts
  else if has_ts_commit then commit_ts
  else WT_TS_NONE

/-- The CAS retry loop of `__wt_txn_commit` (lines 1020-1028).  `prev` is
the last-read global durable timestamp, `candidate` the committing
transaction's candidate.  `interf` is the value the global field holds at
each failed-CAS re-read (one entry per failure; concurrent committers run
the same loop and only move the field up); with `interf = []` every CAS
succeeds immediately.  Returns the global durable timestamp after the
loop. -/
def durableCasLoop : Nat → Nat → List Nat → Nat
  | prev, candidate, [] => if prev < candidate then candidate else prev
  | prev, candidate, g2 :: rest =>
    if prev < candidate then durableCasLoop g2 candidate rest else prev

/-- The successive values of the global durable timestamp observed (and
finally written) along the CAS retry loop. -/
def durableCasTrace : Nat → Nat → List Nat → List Nat
  | prev, candidate, [] => if prev < candidate then [prev, candidate] else [prev]
  | prev, candidate, g2 :: rest =>
    if prev < candidate then prev :: durableCasTrace g2 candidate rest else [prev]

/-- Lines 1008-1028 of `__wt_txn_commit`: read the global durable
timestamp, and when the candidate is set and ahead of it, advance it via
the CAS retry loop. -/
def commitAdvanceDurable (globalDurable candidate : Nat) (interf : List Nat) : Nat :=
  if candidate ≠ WT_TS_NONE ∧ globalDurable < candidate then
    durableCasLoop globalDurable candidate interf
  else globalDurable

/-- The observation trace of `commitAdvanceDurable`: the loop's trace when
it runs, the single unchanged reading otherwise. -/
def commitDurableTrace (globalDurable candidate : Nat) (interf : List Nat) : List Nat :=
  if candidate ≠ WT_TS_NONE ∧ globalDurable < candidate then
    durableCasTrace globalDurable candidate interf
  else [globalDurable]

theorem durableCasTrace_shape :
    ∀ (i : List Nat) (p c : Nat), ∃ t, durableCasTrace p c i = p :: t := by
  intro i p c
  cases i <;> simp only [durableCasTrace] <;> split_ifs <;> exact ⟨_, rfl⟩

theorem durableCasLoop_ge :
    ∀ (i : List Nat) (p c : Nat), List.Chain (fun x y => x ≤ y) p i →
      max p c ≤ durableCasLoop p c i := by
  intro i
  induction i with
  | nil =>
    intro p c _
    simp only [durableCasLoop]
    split_ifs <;> omega
  | cons g2 rest ih =>
    intro p c hch
    rcases List.chain_cons.mp hch with ⟨hpg, hrest⟩
    simp only [durableCasLoop]
    split_ifs with h
    · have := ih g2 c hrest
      omega
    · omega

theorem durableCasTrace_chain :
    ∀ (i : List Nat) (p c : Nat), List.Chain (fun x y => x ≤ y) p i →
      List.Chain' (fun x y => x ≤ y) (durableCasTrace p c i) := by
  intro i
  induction i with
  | nil =>
    intro p c _
    simp only [durableCasTrace]
    split_ifs with h
    · exact List.chain'_cons.mpr ⟨Nat.le_of_lt h, List.chain'_singleton c⟩
    · exact List.chain'_singleton p
  | cons g2 rest ih =>
    intro p c hch
    rcases List.chain_cons.mp hch with ⟨hpg, hrest⟩
    simp only [durableCasTrace]
    split_ifs with h
    · obtain ⟨t, ht⟩ := durableCasTrace_shape rest g2 c
      rw [ht]
      exact List.chain'_cons.mpr ⟨hpg, ht ▸ ih g2 c hrest⟩
    · exact List.chain'_singleton p

theorem durableCasTrace_getLast :
    ∀ (i : List Nat) (p c : Nat),
      (durableCasTrace p c i).getLast? = some (durableCasLoop p c i) := by
  intro i
  induction i with
  | nil =>
    intro p c
    simp only [durableCasTrace, durableCasLoop]
    split_ifs <;> rfl
  | cons g2 rest ih =>
    intro p c
    simp only [durableCasTrace, durableCasLoop]
    split_ifs with h
    · obtain ⟨t, ht⟩ := durableCasTrace_shape rest g2 c
      rw [ht, List.getLast?_cons_cons, ← ht, ih g2 c]
    · rfl

/-- C5: the commit path's final step advances the global durable timestamp
with a compare-and-swap retry loop on `max(current, candidate)`: with no
interference the new value is exactly `max(previous, candidate)`; under
concurrent committers, which only ever move the field up, every successive
observation of the field is at least the previous one (it never decreases),
the final write is the last observation, and the outcome is at least
`max(previous, candidate)`. -/
theorem commit_durable_monotone (g dts cts : Nat) (hd hc : Bool) (interf : List Nat)
    (hmono : List.Chain (fun x y => x ≤ y) g interf) :
    commitAdvanceDurable g (candidateDurable hd hc dts cts) []
        = max g (candidateDurable hd hc dts cts) ∧
    List.Chain' (fun x y => x ≤ y)
        (commitDurableTrace g (candidateDurable hd hc dts cts) interf) ∧
    (commitDurableTrace g (candidateDurable hd hc dts cts) interf).getLast?
        = some (commitAdvanceDurable g (candidateDurable hd hc dts cts) interf) ∧
    g ≤ commitAdvanceDurable g (candidateDurable hd hc dts cts) interf := by
  refine ⟨?_, ?_, ?_, ?_⟩
  · unfold commitAdvanceDurable
    split_ifs with h
    · simp only [durableCasLoop]
      split_ifs <;> omega
    · simp only [WT_TS_NONE] at h
      omega
  · unfold commitDurableTrace
    split_ifs with h
    · exact durableCasTrace_chain interf g _ hmono
    · exact List.chain'_singleton g
  · unfold commitDurableTrace commitAdvanceDurable
    split_ifs with h
    · exact durableCasTrace_getLast interf g _
    · rfl
  · unfold commitAdvanceDurable
    split_ifs with h
    · have := durableCasLoop_ge interf g (candidateDurable hd hc dts cts) hmono
      omega
    · exact Nat.le_refl g

/-- Witness for C5 at a concrete input: previous value 5, candidate durable
timestamp 9, two interfering committers raising the field to 6 then 7. -/
theorem commit_durable_monotone_witness :
    commitAdvanceDurable 5 (candidateDurable true false 9 0) []
        = max 5 (candidateDurable true false 9 0) ∧
    List.Chain' (fun x y => x ≤ y)
        (commitDurableTrace 5 (candidateDurable true false 9 0) [6, 7]) ∧
    (commitDurableTrace 5 (candidateDurable true false 9 0) [6, 7]).getLast?
        = some (commitAdvanceDurable 5 (candidateDurable true false 9 0) [6, 7]) ∧
    5 ≤ commitAdvanceDurable 5 (candidateDurable true false 9 0) [6, 7] :=
  commit_durable_monotone 5 9 0 true false [6, 7] (by simp)

/-! ### Transactions, operations, update records
(`__wt_txn_commit` lines 773-1049, `__wt_txn_rollback` lines 1184-1286)

External calls made by these paths — the notify callback, logging,
`__wt_txn_resolve_prepared_op`, `__wt_delete_page_rollback`, the btree
search of the per-key timestamp walk — are oracles: their return codes are
explicit parameters or per-operation fields.  The `WT_ERR_ASSERT` /
`WT_RET_ASSERT` macros on the resolved/visited counts live in err.h, which
is not under src/; they are modelled from the spec, which classifies the
mismatch as an InvariantViolation that is "fatal; the process must abort
rather than continue with corrupted MVCC state": a failed count assertion
maps to the distinguished `fatal` outcome, not to a returned error. -/

/-- `WT_UPDATE` types: only `WT_UPDATE_RESERVE` is distinguished by
txn.c. -/
inductive UpdateType
  | upd_standard
  | upd_reserve
deriving DecidableEq, Repr

/-- `prepare_state` of an update record. -/
inductive PrepareState
  | prep_init
  | prep_inprogress
  | prep_locked
  | prep_resolved
deriving DecidableEq, Repr

/-- The update-record fields txn.c touches. -/
structure WT_UPDATE where
  txnid : Nat
  start_ts : Nat
  durable_ts : Nat
  upd_type : UpdateType
  prepare_state : PrepareState
deriving DecidableEq, Repr

/-- `WT_TXN_OP` types. -/
inductive OpType
  | op_none
  | basic_col
  | basic_row
  | inmem_col
  | inmem_row
  | ref_delete
  | truncate_col
  | truncate_row
deriving DecidableEq, Repr

/-- Whether an op type is one of the four `WT_TXN_OP_BASIC/INMEM` cases. -/
def isBasicOp : OpType → Bool
  | OpType.basic_col => true
  | OpType.basic_row => true
  | OpType.inmem_col => true
  | OpType.inmem_row => true
  | _ => false

/-- A transaction operation (`WT_TXN_OP`): its type, the update record it
references, the `WT_TXN_OP_KEY_REPEATED` / `WT_TXN_OP_KEY_RESERVED` flags,
whether it targets the lookaside file, and the oracle outcomes of the
external calls made for it: `resolveRet` / `resolveCount` are the return
code and the resolved-update increment of `__wt_txn_resolve_prepared_op`
(declared in the tree but not under src/), `pageRollbackRet` the return
code of `__wt_delete_page_rollback`. -/
structure WT_TXN_OP where
  op_type : OpType
  upd : WT_UPDATE
  key_repeated : Bool
  key_reserved : Bool
  is_las : Bool
  resolveRet : Nat
  resolveCount : Nat
  pageRollbackRet : Nat
deriving DecidableEq, Repr

/-- The `WT_TXN` fields the commit/rollback paths use.  The `flag_*`
fields are the `F_ISSET` flags; `notifyRet` is `some r` when a notify
callback is registered and returns `r`, `none` when there is none. -/
structure WT_TXN where
  id : Nat
  flag_running : Bool
  flag_prepare : Bool
  flag_has_id : Bool
  flag_has_ts_commit : Bool
  flag_has_ts_durable : Bool
  flag_has_ts_prepare : Bool
  flag_sync_set : Bool
  flag_ts_commit_always : Bool
  flag_ts_commit_never : Bool
  flag_ts_durable_always : Bool
  flag_ts_durable_never : Bool
  flag_ts_commit_keys : Bool
  flag_ts_durable_keys : Bool
  commit_timestamp : Nat
  durable_timestamp : Nat
  prepare_timestamp : Nat
  mod : List WT_TXN_OP
  notifyRet : Option Nat
deriving DecidableEq, Repr

/-- The commit configuration string, parsed: an optional commit timestamp,
an optional durable timestamp, and whether an explicit `sync` setting is
present. -/
structure CommitConfig where
  commit_ts : Option Nat
  durable_ts : Option Nat
  sync_explicit : Bool
deriving DecidableEq, Repr

/-- Modelled from the spec: `__wt_txn_set_timestamp` (txn_timestamp.c, not
under src/).  It parses the commit and durable timestamps out of the
configuration, records them on the transaction, and validates the prepare
ordering: committing a prepared transaction with a commit timestamp older
than the prepare timestamp is rejected with `EINVAL` (the spec: "committing
with `commit_timestamp < prepare_timestamp` is rejected").  Timestamp
round-up options are not modelled. -/
def __wt_txn_set_timestamp (txn : WT_TXN) (cfg : CommitConfig) : Except Nat WT_TXN :=
  match cfg.commit_ts with
  | some ts =>
    if txn.flag_prepare ∧ ts < txn.prepare_timestamp then Except.error EINVAL
    else
      let txn1 := { txn with flag_has_ts_commit := true, commit_timestamp := ts }
      match cfg.durable_ts with
      | some dts =>
        Except.ok { txn1 with flag_has_ts_durable := true, durable_timestamp := dts }
      | none => Except.ok txn1
  | none =>
    match cfg.durable_ts with
    | some dts =>
      Except.ok { txn with flag_has_ts_durable := true, durable_timestamp := dts }
    | none => Except.ok txn

/-- `__txn_commit_timestamps_assert` (lines 633-767): the four
timestamp-usage checks, then — only when per-key consistency checking is
configured — the walk over the modifications; that walk re-locates updates
through the btree layer, which is outside txn.c, so its outcome is the
oracle `keysCheckRet`. -/
def __txn_commit_timestamps_assert (txn : WT_TXN) (keysCheckRet : Nat) : Nat :=
  if txn.flag_ts_commit_always ∧ ¬txn.flag_has_ts_commit ∧ txn.mod.length ≠ 0 then EINVAL
  else if txn.flag_ts_commit_never ∧ txn.flag_has_ts_commit ∧ txn.mod.length ≠ 0 then EINVAL
  else if txn.flag_ts_durable_always ∧ ¬txn.flag_has_ts_durable ∧ txn.mod.length ≠ 0 then
    EINVAL
  else if txn.flag_ts_durable_never ∧ txn.flag_has_ts_durable ∧ txn.mod.length ≠ 0 then
    EINVAL
  else if ¬txn.flag_ts_commit_keys ∧ ¬txn.flag_ts_durable_keys then 0
  else keysCheckRet

/-- `__wt_txn_release` (lines 566-627) restricted to the transaction
fields of the embedding: the published slot and the transaction id are
cleared, all flags are cleared, the prepare timestamp is cleared and the
notify pointer dropped; the commit and durable timestamp values are
purposely kept; the operation list is gone (`mod_count = 0`). -/
def __wt_txn_release (txn : WT_TXN) : WT_TXN :=
  { txn with
    id := WT_TXN_NONE
    flag_running := false
    flag_prepare := false
    flag_has_id := false
    flag_has_ts_commit := false
    flag_has_ts_durable := false
    flag_has_ts_prepare := false
    flag_sync_set := false
    flag_ts_commit_always := false
    flag_ts_commit_never := false
    flag_ts_durable_always := false
    flag_ts_durable_never := false
    flag_ts_commit_keys := false
    flag_ts_durable_keys := false
    prepare_timestamp := WT_TS_NONE
    mod := []
    notifyRet := none }

/-- The outcome of the embedded `__wt_txn_commit`: `committed` carries the
global durable timestamp after the final advance and the released
transaction; `rolledBack e` is the `err:` path, where the source rolls the
transaction back and returns `e`; `fatal` is the invariant-violation
abort. -/
inductive CommitResult
  | committed (durable : Nat) (txn : WT_TXN)
  | rolledBack (err : Nat)
  | fatal
deriving DecidableEq, Repr

/-- One iteration of the commit loop over `txn->mod` (lines 913-978),
threading `(resolved, visited, skip_update_assert)`.  On the non-prepared
path the update is finalized in place — reserved updates become aborted,
lookaside updates immediately visible, the rest get their timestamps via
`__wt_txn_op_set_timestamp` (outside src/) — which leaves the counters
untouched; on the prepared path the counters are maintained exactly as in
the source, and a resolve failure is the `WT_ERR` path. -/
def commitOpStep (prepare : Bool) (acc : Nat × Nat × Bool) (op : WT_TXN_OP) :
    Except Nat (Nat × Nat × Bool) :=
  if isBasicOp op.op_type then
    if prepare then
      if ¬op.key_repeated then
        if op.resolveRet ≠ 0 then Except.error op.resolveRet
        else Except.ok (acc.1 + op.resolveCount, acc.2.1 + 1, acc.2.2 || op.key_reserved)
      else Except.ok (acc.1, acc.2.1 + 1, acc.2.2)
    else Except.ok acc
  else Except.ok acc

/-- The commit loop over `txn->mod` (lines 913-978) as a recursion over
the operation list, short-circuiting on the `WT_ERR` of a failed
resolve. -/
def commitWalk (prepare : Bool) : Nat × Nat × Bool → List WT_TXN_OP → Except Nat (Nat × Nat × Bool)
  | acc, [] => Except.ok acc
  | acc, op :: rest =>
    match commitOpStep prepare acc op with
    | Except.error e => Except.error e
    | Except.ok acc2 => commitWalk prepare acc2 rest

/-- The tail of `__wt_txn_commit` after the validation prologue
(lines 893-1036): the oracle `logRet` is the outcome of writing the commit
log record; then the operation walk, the count assertion, release, and
the durable-timestamp advance. -/
def commitOps (g : WT_TXN_GLOBAL) (txn : WT_TXN) (logRet : Nat) (interf : List Nat) :
    CommitResult :=
  if logRet ≠ 0 then CommitResult.rolledBack logRet
  else
    match commitWalk txn.flag_prepare (0, 0, false) txn.mod with
    | Except.error e => CommitResult.rolledBack e
    | Except.ok acc =>
      if ¬(acc.2.2 = true ∨ acc.1 = acc.2.1) then CommitResult.fatal
      else
        CommitResult.committed
          (commitAdvanceDurable g.durable_timestamp
            (candidateDurable txn.flag_has_ts_durable txn.flag_has_ts_commit
              txn.durable_timestamp txn.commit_timestamp) interf)
          (__wt_txn_release txn)

/-- `__wt_txn_commit` (lines 773-1049), sequential embedding: set and
validate timestamps, check the prepared/non-prepared configuration
preconditions, run the timestamp-usage checks, reject a second explicit
`sync` setting, fire the notify callback, then process the operations and
advance the durable timestamp.  Every `WT_ERR` is the `err:` path: roll
back and return the error. -/
def __wt_txn_commit (g : WT_TXN_GLOBAL) (txn : WT_TXN) (cfg : CommitConfig)
    (keysCheckRet logRet : Nat) (interf : List Nat) : CommitResult :=
  match __wt_txn_set_timestamp txn cfg with
  | Except.error e => CommitResult.rolledBack e
  | Except.ok txn1 =>
    if txn1.flag_prepare ∧ ¬txn1.flag_has_ts_commit then CommitResult.rolledBack EINVAL
    else if txn1.flag_prepare ∧ ¬txn1.flag_has_ts_durable then CommitResult.rolledBack EINVAL
    else if ¬txn1.flag_prepare ∧ txn1.flag_has_ts_prepare then CommitResult.rolledBack EINVAL
    else if ¬txn1.flag_prepare ∧ txn1.flag_has_ts_durable then CommitResult.rolledBack EINVAL
    else if __txn_commit_timestamps_assert txn1 keysCheckRet ≠ 0 then
      CommitResult.rolledBack (__txn_commit_timestamps_assert txn1 keysCheckRet)
    else if cfg.sync_explicit ∧ txn1.flag_sync_set then CommitResult.rolledBack EINVAL
    else
      match txn1.notifyRet with
      | some r =>
        if r ≠ 0 then CommitResult.rolledBack r else commitOps g txn1 logRet interf
      | none => commitOps g txn1 logRet interf

/-- `WT_TRET`: fold a secondary call's return code into the running one,
keeping the first failure. -/
def WT_TRET (r e : Nat) : Nat := if e ≠ 0 ∧ r = 0 then e else r

/-- The outcome of the embedded `__wt_txn_rollback`: `completed` carries
the returned code (nonzero when the notify callback or a page-delete
rollback failed), the released transaction, and the tombstoned update
records of the non-prepared path; `failedEarly e` is the `WT_RET` exit when
resolving a prepared operation fails, which leaves the walk unfinished;
`fatal` is the invariant-violation abort of the count assertion. -/
inductive RollbackResult
  | completed (ret : Nat) (txn : WT_TXN) (upds : List WT_UPDATE)
  | failedEarly (err : Nat)
  | fatal
deriving DecidableEq, Repr

/-- The state threaded through the rollback loop (lines 1196-1268). -/
structure RollbackAcc where
  ret : Nat
  resolved : Nat
  visited : Nat
  skip : Bool
  upds : List WT_UPDATE
deriving DecidableEq, Repr

/-- One iteration of the rollback loop over `txn->mod` (lines 1207-1268):
a prepared transaction resolves each non-repeated operation (`WT_RET` on
failure); a non-prepared one sets the update's `txnid` to the
`WT_TXN_ABORTED` tombstone; `WT_TXN_OP_REF_DELETE` rolls the page delete
back with `WT_TRET`; truncate operations need nothing. -/
def rollbackOpStep (prepare : Bool) (acc : RollbackAcc) (op : WT_TXN_OP) :
    Except Nat RollbackAcc :=
  if isBasicOp op.op_type then
    if prepare then
      if ¬op.key_repeated then
        if op.resolveRet ≠ 0 then Except.error op.resolveRet
        else Except.ok
          { acc with
            resolved := acc.resolved + op.resolveCount
            visited := acc.visited + 1
            skip := acc.skip || op.key_reserved }
      else Except.ok { acc with visited := acc.visited + 1 }
    else Except.ok
      { acc with upds := acc.upds ++ [{ op.upd with txnid := WT_TXN_ABORTED }] }
  else if op.op_type = OpType.ref_delete then
    Except.ok { acc with ret := WT_TRET acc.ret op.pageRollbackRet }
  else Except.ok acc

/-- The rollback loop over `txn->mod` (lines 1207-1268) as a recursion
over the operation list, short-circuiting on the `WT_RET` of a failed
resolve. -/
def rollbackWalk (prepare : Bool) : RollbackAcc → List WT_TXN_OP → Except Nat RollbackAcc
  | acc, [] => Except.ok acc
  | acc, op :: rest =>
    match rollbackOpStep prepare acc op with
    | Except.error e => Except.error e
    | Except.ok acc2 => rollbackWalk prepare acc2 rest

/-- `__wt_txn_rollback` (lines 1184-1286), sequential embedding: the
notify callback's failure is captured with `WT_TRET` and carried to the
final return; the operation walk runs as `rollbackOpStep`; the count
assertion (`WT_RET_ASSERT`, modelled from the spec as the fatal
invariant-violation abort) follows; then the transaction is released. -/
def __wt_txn_rollback (txn : WT_TXN) : RollbackResult :=
  let ret0 : Nat :=
    match txn.notifyRet with
    | some r => WT_TRET 0 r
    | none => 0
  match rollbackWalk txn.flag_prepare
      { ret := ret0, resolved := 0, visited := 0, skip := false, upds := [] } txn.mod with
  | Except.error e => RollbackResult.failedEarly e
  | Except.ok acc =>
    if ¬(acc.skip = true ∨ acc.resolved = acc.visited) then RollbackResult.fatal
    else RollbackResult.completed acc.ret (__wt_txn_release txn) acc.upds

/-- The returned code of a completed rollback. -/
def rollbackRet : RollbackResult → Option Nat
  | RollbackResult.completed r _ _ => some r
  | _ => none

/-- A running, non-prepared transaction whose caller registered a notify
callback that reports failure code 5. -/
def notifyFailTxn : WT_TXN :=
  { id := 20, flag_running := true, flag_prepare := false, flag_has_id := true,
    flag_has_ts_commit := false, flag_has_ts_durable := false,
    flag_has_ts_prepare := false, flag_sync_set := false,
    flag_ts_commit_always := false, flag_ts_commit_never := false,
    flag_ts_durable_always := false, flag_ts_durable_never := false,
    flag_ts_commit_keys := false, flag_ts_durable_keys := false,
    commit_timestamp := 0, durable_timestamp := 0, prepare_timestamp := 0,
    mod := [], notifyRet := some 5 }

/-- C7 counterexample: `__wt_txn_rollback` on a running transaction whose
notify callback fails with code 5 completes the abort but returns 5 to the
caller (lines 1203-1204 capture the notify failure with `WT_TRET` and
line 1285 returns it): rollback, as the source implements it, can return
an error to the caller, contradicting the claim. -/
theorem rollback_returns_notify_error :
    rollbackRet (__wt_txn_rollback notifyFailTxn) = some 5 ∧ (5 : Nat) ≠ 0 := by decide

/-- The tombstoned update records the rollback of a non-prepared
transaction produces: one per basic operation, with `txnid` set to
`WT_TXN_ABORTED`. -/
def tombstoned (l : List WT_TXN_OP) : List WT_UPDATE :=
  (l.filter (fun op => isBasicOp op.op_type)).map
    (fun op => { op.upd with txnid := WT_TXN_ABORTED })

theorem rollbackWalk_non_prepared :
    ∀ (l : List WT_TXN_OP) (acc : RollbackAcc),
      (∀ op ∈ l, op.op_type = OpType.ref_delete → op.pageRollbackRet = 0) →
      rollbackWalk false acc l
        = Except.ok { acc with upds := acc.upds ++ tombstoned l } := by
  intro l
  induction l with
  | nil =>
    intro acc _
    simp [rollbackWalk, tombstoned]
  | cons op t ih =>
    intro acc hp
    have hp2 : ∀ q ∈ t, q.op_type = OpType.ref_delete → q.pageRollbackRet = 0 :=
      fun q hq => hp q (List.mem_cons_of_mem op hq)
    by_cases hb : isBasicOp op.op_type
    · have hstep : rollbackOpStep false acc op = Except.ok
          { acc with upds := acc.upds ++ [{ op.upd with txnid := WT_TXN_ABORTED }] } := by
        simp [rollbackOpStep, hb]
      simp only [rollbackWalk, hstep]
      rw [ih _ hp2]
      simp [tombstoned, hb, List.filter_cons, List.append_assoc]
    · by_cases hr : op.op_type = OpType.ref_delete
      · have hstep : rollbackOpStep false acc op = Except.ok acc := by
          simp [rollbackOpStep, isBasicOp, hb, hr, WT_TRET,
            hp op (List.mem_cons_self op t) hr]
        simp only [rollbackWalk, hstep]
        rw [ih _ hp2]
        simp [tombstoned, hb, List.filter_cons]
      · have hstep : rollbackOpStep false acc op = Except.ok acc := by
          simp [rollbackOpStep, hb, hr]
        simp only [rollbackWalk, hstep]
        rw [ih _ hp2]
        simp [tombstoned, hb, List.filter_cons]

/-- C7 amended: once entered, rollback of a running non-prepared
transaction whose caller registered no notify callback and whose
page-delete rollbacks succeed always reaches the terminal aborted state
and returns no error: every owned update's `txnid` is set to the
`WT_TXN_ABORTED` tombstone, the operation list is freed and the slot/id
cleared by release, and the returned code is 0.  (In general the source
can return a nonzero code: a notify-callback or page-delete failure is
carried with `WT_TRET` to the final return even though the abort work
completes, and for a prepared transaction a failure to resolve an
operation returns early — the counterexample shows the notify case.) -/
theorem rollback_completes_non_prepared (txn : WT_TXN)
    (hprep : txn.flag_prepare = false) (hnotify : txn.notifyRet = none)
    (hpage : ∀ op ∈ txn.mod, op.op_type = OpType.ref_delete → op.pageRollbackRet = 0) :
    __wt_txn_rollback txn
        = RollbackResult.completed 0 (__wt_txn_release txn) (tombstoned txn.mod) ∧
      (__wt_txn_release txn).mod = [] ∧ (__wt_txn_release txn).id = WT_TXN_NONE ∧
      ∀ u ∈ tombstoned txn.mod, u.txnid = WT_TXN_ABORTED := by
  refine ⟨?_, rfl, rfl, ?_⟩
  · simp only [__wt_txn_rollback, hnotify, hprep]
    rw [rollbackWalk_non_prepared txn.mod _ hpage]
    simp
  · intro u hu
    rcases List.mem_map.mp hu with ⟨op, -, h⟩
    rw [← h]

/-- A plain update record for the lifecycle witnesses. -/
def demoUpd : WT_UPDATE :=
  { txnid := 20, start_ts := 0, durable_ts := 0,
    upd_type := UpdateType.upd_standard, prepare_state := PrepareState.prep_init }

/-- A basic-row operation owned by transaction 20, all oracles benign. -/
def demoOp : WT_TXN_OP :=
  { op_type := OpType.basic_row, upd := demoUpd, key_repeated := false,
    key_reserved := false, is_las := false, resolveRet := 0, resolveCount := 0,
    pageRollbackRet := 0 }

/-- A running non-prepared transaction with a basic write, a page delete
and a truncate, no notify callback. -/
def rollbackOkTxn : WT_TXN :=
  { id := 20, flag_running := true, flag_prepare := false, flag_has_id := true,
    flag_has_ts_commit := false, flag_has_ts_durable := false,
    flag_has_ts_prepare := false, flag_sync_set := false,
    flag_ts_commit_always := false, flag_ts_commit_never := false,
    flag_ts_durable_always := false, flag_ts_durable_never := false,
    flag_ts_commit_keys := false, flag_ts_durable_keys := false,
    commit_timestamp := 0, durable_timestamp := 0, prepare_timestamp := 0,
    mod := [demoOp, { demoOp with op_type := OpType.ref_delete },
      { demoOp with op_type := OpType.truncate_row }],
    notifyRet := none }

/-- Witness for the amended C7 at a concrete input. -/
theorem rollback_completes_non_prepared_witness :
    __wt_txn_rollback rollbackOkTxn
        = RollbackResult.completed 0 (__wt_txn_release rollbackOkTxn)
            (tombstoned rollbackOkTxn.mod) ∧
      (__wt_txn_release rollbackOkTxn).mod = [] :=
  ⟨(rollback_completes_non_prepared rollbackOkTxn rfl rfl (by decide)).1,
    (rollback_completes_non_prepared rollbackOkTxn rfl rfl (by decide)).2.1⟩

/-- C8: when commit or rollback of a prepared transaction finds the count
of resolved prepared updates differing from the count of operations
visited — with no operation carrying the `WT_TXN_OP_KEY_RESERVED` escape
that sets `skip_update_assert` — the outcome is the fatal
invariant-violation abort, not a recoverable error returned to the caller
(`WT_ERR_ASSERT` / `WT_RET_ASSERT` are modelled from the spec, which
classifies the mismatch as an InvariantViolation on which "the process
must abort rather than continue with corrupted MVCC state"). -/
theorem resolved_visited_mismatch_fatal (g : WT_TXN_GLOBAL) (txn : WT_TXN)
    (keysCheckRet : Nat) (interf : List Nat) (acc : Nat × Nat × Bool) (racc : RollbackAcc)
    (hprep : txn.flag_prepare = true)
    (hc : txn.flag_has_ts_commit = true) (hd : txn.flag_has_ts_durable = true)
    (ha : __txn_commit_timestamps_assert txn keysCheckRet = 0)
    (hnotify : txn.notifyRet = none)
    (hwalk : commitWalk true (0, 0, false) txn.mod = Except.ok acc)
    (hmm : acc.2.2 = false ∧ acc.1 ≠ acc.2.1)
    (hrwalk : rollbackWalk true
      { ret := 0, resolved := 0, visited := 0, skip := false, upds := [] } txn.mod
      = Except.ok racc)
    (hrmm : racc.skip = false ∧ racc.resolved ≠ racc.visited) :
    __wt_txn_commit g txn { commit_ts := none, durable_ts := none, sync_explicit := false }
        keysCheckRet 0 interf = CommitResult.fatal ∧
      __wt_txn_rollback txn = RollbackResult.fatal := by
  have hcond : ¬(acc.2.2 = true ∨ acc.1 = acc.2.1) := by
    rcases hmm with ⟨h1, h2⟩
    rintro (h | h)
    · rw [h1] at h
      simp at h
    · exact h2 h
  have hrcond : ¬(racc.skip = true ∨ racc.resolved = racc.visited) := by
    rcases hrmm with ⟨h1, h2⟩
    rintro (h | h)
    · rw [h1] at h
      simp at h
    · exact h2 h
  constructor
  · simp only [__wt_txn_commit, __wt_txn_set_timestamp, commitOps]
    simp [hprep, hc, hd, ha, hnotify, hwalk, hcond]
  · simp only [__wt_txn_rollback]
    simp [hprep, hnotify, hrwalk, hrcond, WT_TRET]

/-- A global table for the commit witnesses. -/
def demoGlobal : WT_TXN_GLOBAL :=
  { current := 30, last_running := 25, oldest_id := 18, metadata_pinned := 18,
    checkpoint_id := 0, nsnap_oldest_id := 0, durable_timestamp := 6,
    has_durable_timestamp := true, states := [] }

/-- A prepared transaction (prepare timestamp 5, commit 8, durable 9) with
one operation whose resolve succeeds but resolves zero updates: one
visited, zero resolved. -/
def mismatchTxn : WT_TXN :=
  { id := 20, flag_running := true, flag_prepare := true, flag_has_id := true,
    flag_has_ts_commit := true, flag_has_ts_durable := true,
    flag_has_ts_prepare := true, flag_sync_set := false,
    flag_ts_commit_always := false, flag_ts_commit_never := false,
    flag_ts_durable_always := false, flag_ts_durable_never := false,
    flag_ts_commit_keys := false, flag_ts_durable_keys := false,
    commit_timestamp := 8, durable_timestamp := 9, prepare_timestamp := 5,
    mod := [demoOp], notifyRet := none }

/-- Witness for C8 at a concrete input: one visited operation, zero
resolved updates, commit and rollback both abort. -/
theorem resolved_visited_mismatch_fatal_witness :
    __wt_txn_commit demoGlobal mismatchTxn
        { commit_ts := none, durable_ts := none, sync_explicit := false } 0 0 []
      = CommitResult.fatal ∧
      __wt_txn_rollback mismatchTxn = RollbackResult.fatal :=
  resolved_visited_mismatch_fatal demoGlobal mismatchTxn 0 [] (0, 1, false)
    { ret := 0, resolved := 0, visited := 1, skip := false, upds := [] }
    rfl rfl rfl (by decide) rfl rfl (by decide) rfl (by decide)

/-- C9: committing a prepared transaction with
`commit_timestamp < prepare_timestamp` is rejected with `EINVAL` (the
`err:` path rolls the transaction back), while with
`commit_timestamp ≥ prepare_timestamp` the commit proceeds past timestamp
validation and completes.  The validation lives in
`__wt_txn_set_timestamp`, modelled from the spec (txn_timestamp.c is not
under src/); the remaining hypotheses put the environment on the benign
path: no timestamp-usage debug checks, no notify callback, logging
succeeds, and the prepared operations resolve with matching counts. -/
theorem prepared_commit_ts_ordering (g : WT_TXN_GLOBAL) (txn : WT_TXN)
    (cts dts keysCheckRet : Nat) (interf : List Nat) (acc : Nat × Nat × Bool)
    (hprep : txn.flag_prepare = true)
    (hf1 : txn.flag_ts_commit_always = false) (hf2 : txn.flag_ts_commit_never = false)
    (hf3 : txn.flag_ts_durable_always = false) (hf4 : txn.flag_ts_durable_never = false)
    (hf5 : txn.flag_ts_commit_keys = false) (hf6 : txn.flag_ts_durable_keys = false)
    (hnotify : txn.notifyRet = none)
    (hwalk : commitWalk true (0, 0, false) txn.mod = Except.ok acc)
    (hok : acc.2.2 = true ∨ acc.1 = acc.2.1) :
    (cts < txn.prepare_timestamp →
      __wt_txn_commit g txn
          { commit_ts := some cts, durable_ts := some dts, sync_explicit := false }
          keysCheckRet 0 interf
        = CommitResult.rolledBack EINVAL) ∧
    (txn.prepare_timestamp ≤ cts →
      ∃ t, __wt_txn_commit g txn
          { commit_ts := some cts, durable_ts := some dts, sync_explicit := false }
          keysCheckRet 0 interf
        = CommitResult.committed
            (commitAdvanceDurable g.durable_timestamp dts interf) t) := by
  constructor
  · intro hlt
    simp only [__wt_txn_commit, __wt_txn_set_timestamp]
    simp [hprep, hlt]
  · intro hge
    refine ⟨__wt_txn_release
      { txn with
        flag_has_ts_commit := true
        commit_timestamp := cts
        flag_has_ts_durable := true
        durable_timestamp := dts }, ?_⟩
    have hnge : ¬(cts < txn.prepare_timestamp) := by omega
    have hok2 : ¬(acc.2.2 = false ∧ ¬acc.1 = acc.2.1) := by
      rintro ⟨h1, h2⟩
      rcases hok with h | h
      · rw [h] at h1
        simp at h1
      · exact h2 h
    simp only [__wt_txn_commit, __wt_txn_set_timestamp, commitOps,
      __txn_commit_timestamps_assert, candidateDurable]
    simp [hprep, hnge, hf1, hf2, hf3, hf4, hf5, hf6, hnotify, hwalk, hok2,
      __wt_txn_release]

/-- A prepared transaction (prepare timestamp 5) whose single operation
resolves exactly one update. -/
def preparedTxn : WT_TXN :=
  { id := 20, flag_running := true, flag_prepare := true, flag_has_id := true,
    flag_has_ts_commit := false, flag_has_ts_durable := false,
    flag_has_ts_prepare := true, flag_sync_set := false,
    flag_ts_commit_always := false, flag_ts_commit_never := false,
    flag_ts_durable_always := false, flag_ts_durable_never := false,
    flag_ts_commit_keys := false, flag_ts_durable_keys := false,
    commit_timestamp := 0, durable_timestamp := 0, prepare_timestamp := 5,
    mod := [{ demoOp with resolveCount := 1 }], notifyRet := none }

/-- Witness for C9 at a concrete input: committing the prepared
transaction at commit timestamp 3 < 5 is rejected; at 8 ≥ 5 it is not. -/
theorem prepared_commit_ts_ordering_witness :
    (__wt_txn_commit demoGlobal preparedTxn
        { commit_ts := some 3, durable_ts := some 9, sync_explicit := false } 0 0 []
      = CommitResult.rolledBack EINVAL) ∧
    (__wt_txn_commit demoGlobal preparedTxn
        { commit_ts := some 8, durable_ts := some 9, sync_explicit := false } 0 0 []
      ≠ CommitResult.rolledBack EINVAL) := by
  constructor
  · exact (prepared_commit_ts_ordering demoGlobal preparedTxn 3 9 0 [] (1, 1, false)
      rfl rfl rfl rfl rfl rfl rfl rfl rfl (Or.inr rfl)).1 (by decide)
  · obtain ⟨t, ht⟩ := (prepared_commit_ts_ordering demoGlobal preparedTxn 8 9 0 []
      (1, 1, false) rfl rfl rfl rfl rfl rfl rfl rfl rfl (Or.inr rfl)).2 (by decide)
    rw [ht]
    simp

/-- C10: the implicit configuration preconditions of `__wt_txn_commit`
(lines 812-834): a prepared transaction without a commit timestamp or
without a durable timestamp, and a non-prepared transaction with a prepare
timestamp or with a durable timestamp, are all rejected with `EINVAL`; the
result is the `err:` path — the transaction is rolled back, not
committed. -/
theorem commit_config_preconditions (g : WT_TXN_GLOBAL) (txn : WT_TXN)
    (keysCheckRet logRet : Nat) (interf : List Nat) :
    (txn.flag_prepare = true → txn.flag_has_ts_commit = false →
      __wt_txn_commit g txn { commit_ts := none, durable_ts := none, sync_explicit := false }
          keysCheckRet logRet interf
        = CommitResult.rolledBack EINVAL) ∧
    (txn.flag_prepare = true → txn.flag_has_ts_durable = false →
      __wt_txn_commit g txn { commit_ts := none, durable_ts := none, sync_explicit := false }
          keysCheckRet logRet interf
        = CommitResult.rolledBack EINVAL) ∧
    (txn.flag_prepare = false → txn.flag_has_ts_prepare = true →
      __wt_txn_commit g txn { commit_ts := none, durable_ts := none, sync_explicit := false }
          keysCheckRet logRet interf
        = CommitResult.rolledBack EINVAL) ∧
    (txn.flag_prepare = false → txn.flag_has_ts_durable = true →
      __wt_txn_commit g txn { commit_ts := none, durable_ts := none, sync_explicit := false }
          keysCheckRet logRet interf
        = CommitResult.rolledBack EINVAL) := by
  refine ⟨?_, ?_, ?_, ?_⟩
  · intro h1 h2
    simp only [__wt_txn_commit, __wt_txn_set_timestamp]
    simp [h1, h2]
  · intro h1 h2
    by_cases hc : txn.flag_has_ts_commit
    · simp only [__wt_txn_commit, __wt_txn_set_timestamp]
      simp [h1, h2, hc]
    · simp only [__wt_txn_commit, __wt_txn_set_timestamp]
      simp [h1, h2, hc]
  · intro h1 h2
    simp only [__wt_txn_commit, __wt_txn_set_timestamp]
    simp [h1, h2]
  · intro h1 h2
    by_cases hp : txn.flag_has_ts_prepare
    · simp only [__wt_txn_commit, __wt_txn_set_timestamp]
      simp [h1, h2, hp]
    · simp only [__wt_txn_commit, __wt_txn_set_timestamp]
      simp [h1, h2, hp]

/-- A non-prepared transaction carrying a durable timestamp. -/
def badDurableTxn : WT_TXN :=
  { id := 21, flag_running := true, flag_prepare := false, flag_has_id := true,
    flag_has_ts_commit := true, flag_has_ts_durable := true,
    flag_has_ts_prepare := false, flag_sync_set := false,
    flag_ts_commit_always := false, flag_ts_commit_never := false,
    flag_ts_durable_always := false, flag_ts_durable_never := false,
    flag_ts_commit_keys := false, flag_ts_durable_keys := false,
    commit_timestamp := 8, durable_timestamp := 9, prepare_timestamp := 0,
    mod := [demoOp], notifyRet := none }

/-- A prepared transaction with no commit or durable timestamp set. -/
def barePreparedTxn : WT_TXN :=
  { id := 22, flag_running := true, flag_prepare := true, flag_has_id := true,
    flag_has_ts_commit := false, flag_has_ts_durable := false,
    flag_has_ts_prepare := true, flag_sync_set := false,
    flag_ts_commit_always := false, flag_ts_commit_never := false,
    flag_ts_durable_always := false, flag_ts_durable_never := false,
    flag_ts_commit_keys := false, flag_ts_durable_keys := false,
    commit_timestamp := 0, durable_timestamp := 0, prepare_timestamp := 5,
    mod := [demoOp], notifyRet := none }

/-- A non-prepared transaction that still carries a prepare timestamp. -/
def strayPrepareTsTxn : WT_TXN :=
  { id := 23, flag_running := true, flag_prepare := false, flag_has_id := true,
    flag_has_ts_commit := false, flag_has_ts_durable := false,
    flag_has_ts_prepare := true, flag_sync_set := false,
    flag_ts_commit_always := false, flag_ts_commit_never := false,
    flag_ts_durable_always := false, flag_ts_durable_never := false,
    flag_ts_commit_keys := false, flag_ts_durable_keys := false,
    commit_timestamp := 0, durable_timestamp := 0, prepare_timestamp := 5,
    mod := [demoOp], notifyRet := none }

/-- Witness for C10 at concrete inputs: all four configuration errors
return `EINVAL` via the rollback path. -/
theorem commit_config_preconditions_witness :
    (__wt_txn_commit demoGlobal barePreparedTxn
        { commit_ts := none, durable_ts := none, sync_explicit := false } 0 0 []
      = CommitResult.rolledBack EINVAL) ∧
    (__wt_txn_commit demoGlobal strayPrepareTsTxn
        { commit_ts := none, durable_ts := none, sync_explicit := false } 0 0 []
      = CommitResult.rolledBack EINVAL) ∧
    (__wt_txn_commit demoGlobal badDurableTxn
        { commit_ts := none, durable_ts := none, sync_explicit := false } 0 0 []
      = CommitResult.rolledBack EINVAL) :=
  ⟨(commit_config_preconditions demoGlobal barePreparedTxn 0 0 []).1 rfl rfl,
    (commit_config_preconditions demoGlobal strayPrepareTsTxn 0 0 []).2.2.1 rfl rfl,
    (commit_config_preconditions demoGlobal badDurableTxn 0 0 []).2.2.2 rfl rfl⟩
